import Mathlib

/-!
Shallow embedding of the device-connectivity and session-relay layer of the
`remote-bt-assist` repository (src/services/BluetoothService.ts,
src/services/SessionService.ts and its Supabase variant, and the relay
handling in src/components/UserDeviceView.tsx), together with theorems
settling the specification claims about it.
-/

namespace RemoteBT

/-- JS-style prefix test on character lists: `isPrefOf pat l` holds when `pat`
is an initial segment of `l` (models `String.prototype.startsWith`). -/
def isPrefOf : List Char → List Char → Bool
  | [], _ => true
  | _ :: _, [] => false
  | a :: pa, b :: lb => a == b && isPrefOf pa lb

/-- JS-style substring test: `hasSub pat l` holds when `pat` occurs
contiguously inside `l` (models `String.prototype.includes`). -/
def hasSub (pat : List Char) : List Char → Bool
  | [] => pat.isEmpty
  | c :: rest => isPrefOf pat (c :: rest) || hasSub pat rest

/-- `jsIncludes s pat` models `s.includes(pat)` from JavaScript. -/
def jsIncludes (s pat : String) : Bool :=
  hasSub pat.data s.data

/-- `jsStartsWith s pat` models `s.startsWith(pat)` from JavaScript. -/
def jsStartsWith (s pat : String) : Bool :=
  isPrefOf pat.data s.data

/-- The closed taxonomy of error kinds, from the `BluetoothErrorType` union
type in BluetoothService.ts. -/
inductive BluetoothErrorType where
  | notSupported
  | userCancelled
  | securityError
  | connectionFailed
  | deviceDisconnected
  | permissionDenied
  | serviceNotFound
  | characteristicNotFound
  | writeFailed
  | notificationFailed
  | unknown
deriving DecidableEq, Repr

/-- The list of the eleven members of the `BluetoothErrorType` union, in
source order. -/
def allErrorTypes : List BluetoothErrorType :=
  [.notSupported, .userCancelled, .securityError, .connectionFailed,
   .deviceDisconnected, .permissionDenied, .serviceNotFound,
   .characteristicNotFound, .writeFailed, .notificationFailed, .unknown]

/-- A JavaScript failure value as `parseBluetoothError` discriminates it:
either an `Error` instance carrying a message, or an arbitrary non-`Error`
value whose string conversion is recorded. -/
inductive JsFailure where
  | err (message : String)
  | nonErr (asString : String)
deriving DecidableEq, Repr

/-- The `errorMessage` computed at the top of `parseBluetoothError`:
`error instanceof Error ? error.message : String(error)`. -/
def JsFailure.text : JsFailure → String
  | .err m => m
  | .nonErr s => s

/-- The `originalError` field each branch of `parseBluetoothError` computes:
`error instanceof Error ? error : undefined`, keeping the `Error`'s message. -/
def JsFailure.orig : JsFailure → Option String
  | .err m => some m
  | .nonErr _ => none

/-- The classified error record produced by `parseBluetoothError`
(`BluetoothError` interface); `originalError` keeps the original `Error`
message when the input was an `Error` instance. -/
structure BluetoothError where
  type : BluetoothErrorType
  message : String
  originalError : Option String
deriving DecidableEq, Repr

/-- Embedding of `BluetoothService.parseBluetoothError` (BluetoothService.ts
lines 62-138): a priority-ordered chain of substring rules over the failure
message, defaulting to the `unknown` record built first. -/
def parseBluetoothError (e : JsFailure) : BluetoothError :=
  if jsIncludes e.text "User cancelled" then
    ⟨.userCancelled, "Operation was cancelled by the user", e.orig⟩
  else if jsIncludes e.text "Bluetooth adapter is not available" then
    ⟨.notSupported, "Bluetooth is not available on this device or browser", e.orig⟩
  else if jsIncludes e.text "GATT Server is disconnected" then
    ⟨.deviceDisconnected, "The Bluetooth device was disconnected", e.orig⟩
  else if jsIncludes e.text "NotFoundError" || jsIncludes e.text "no such service" then
    ⟨.serviceNotFound, "Required Bluetooth service not found on this device", e.orig⟩
  else if jsIncludes e.text "SecurityError" || jsIncludes e.text "secure context" then
    ⟨.securityError, "Bluetooth access requires a secure context (HTTPS)", e.orig⟩
  else if jsIncludes e.text "Permission denied" || jsIncludes e.text "NotAllowedError" then
    ⟨.permissionDenied, "Permission to access Bluetooth was denied", e.orig⟩
  else if jsIncludes e.text "Failed to connect" then
    ⟨.connectionFailed, "Failed to connect to the Bluetooth device", e.orig⟩
  else if jsIncludes e.text "getDevices is not a function" then
    ⟨.notSupported, "This browser does not fully support the Web Bluetooth API", e.orig⟩
  else if jsIncludes e.text "No device connected" then
    ⟨.deviceDisconnected, "No Bluetooth device is connected", e.orig⟩
  else if jsIncludes e.text "characteristic not available" then
    ⟨.characteristicNotFound, "Required Bluetooth characteristic not available", e.orig⟩
  else
    ⟨.unknown, "An unknown error occurred", e.orig⟩

/-- True when at least one substring rule of `parseBluetoothError` matches
the given failure message. -/
def anyRuleMatches (msg : String) : Bool :=
  jsIncludes msg "User cancelled" ||
  jsIncludes msg "Bluetooth adapter is not available" ||
  jsIncludes msg "GATT Server is disconnected" ||
  jsIncludes msg "NotFoundError" || jsIncludes msg "no such service" ||
  jsIncludes msg "SecurityError" || jsIncludes msg "secure context" ||
  jsIncludes msg "Permission denied" || jsIncludes msg "NotAllowedError" ||
  jsIncludes msg "Failed to connect" || jsIncludes msg "getDevices is not a function" ||
  jsIncludes msg "No device connected" || jsIncludes msg "characteristic not available"

/-- Every value of the closed kind type is listed in `allErrorTypes`. -/
lemma mem_allErrorTypes (t : BluetoothErrorType) : t ∈ allErrorTypes := by
  cases t <;> simp [allErrorTypes]

/-- C2: classification totality — for every failure value (an `Error` with
any message, or any non-`Error` value), `parseBluetoothError` returns a
`BluetoothError` whose `type` is one of the eleven defined kinds, and it
returns the `unknown` kind whenever none of the priority-ordered substring
rules matches. -/
theorem parse_error_totality (e : JsFailure) :
    (parseBluetoothError e).type ∈ allErrorTypes ∧
    (anyRuleMatches e.text = false → (parseBluetoothError e).type = .unknown) := by
  constructor
  · exact mem_allErrorTypes _
  · intro h
    unfold anyRuleMatches at h
    simp only [Bool.or_eq_false_iff] at h
    obtain ⟨⟨⟨⟨⟨⟨⟨⟨⟨⟨⟨⟨h1, h2⟩, h3⟩, h4⟩, h5⟩, h6⟩, h7⟩, h8⟩, h9⟩, h10⟩, h11⟩, h12⟩, h13⟩ := h
    simp only [parseBluetoothError, h1, h2, h3, h4, h5, h6, h7, h8, h9, h10,
      h11, h12, h13, Bool.or_self, if_false, Bool.false_eq_true, ite_false]

/-- Concrete instantiation of `parse_error_totality`: an arbitrary unmatched
exception message classifies as `unknown`. -/
theorem parse_error_totality_witness :
    (parseBluetoothError (.err "weird platform failure")).type ∈ allErrorTypes ∧
    (parseBluetoothError (.err "weird platform failure")).type = .unknown :=
  ⟨(parse_error_totality (.err "weird platform failure")).1,
   (parse_error_totality (.err "weird platform failure")).2 (by decide)⟩

/-- No rule of `parseBluetoothError` ever classifies a failure as
`write-failed`: that member of the union type is unreachable from the
classifier. -/
lemma parse_never_write_failed (e : JsFailure) :
    (parseBluetoothError e).type ≠ .writeFailed := by
  unfold parseBluetoothError
  repeat' split
  all_goals simp

/-- UTF-8 encoding of one character, byte values as `TextEncoder` emits
them. -/
def utf8EncodeChar (c : Char) : List Nat :=
  let n := c.toNat
  if n < 0x80 then [n]
  else if n < 0x800 then
    [0xC0 ||| (n >>> 6), 0x80 ||| (n &&& 0x3F)]
  else if n < 0x10000 then
    [0xE0 ||| (n >>> 12), 0x80 ||| ((n >>> 6) &&& 0x3F), 0x80 ||| (n &&& 0x3F)]
  else
    [0xF0 ||| (n >>> 18), 0x80 ||| ((n >>> 12) &&& 0x3F),
     0x80 ||| ((n >>> 6) &&& 0x3F), 0x80 ||| (n &&& 0x3F)]

/-- UTF-8 encoding of a string (models `new TextEncoder().encode(s)`). -/
def utf8Encode (s : String) : List Nat :=
  (s.data.map utf8EncodeChar).flatten

/-- `utf8Encode` is a homomorphism for string append. -/
lemma utf8Encode_append (s t : String) :
    utf8Encode (s ++ t) = utf8Encode s ++ utf8Encode t := by
  unfold utf8Encode
  rw [String.data_append, List.map_append, List.flatten_append]

/-- A platform `BluetoothDevice` object as the service keeps it: opaque id,
optional advertised name, and optionally a `gatt` server object whose
`connected` flag is tracked. `gatt = none` models a missing `gatt`
property; `gatt = some b` models a `gatt` object with `connected = b`. -/
structure PlatformDevice where
  id : String
  name : Option String
  gatt : Option Bool
deriving DecidableEq, Repr

/-- The service's `BluetoothDevice` interface: id, display name, and the
stored platform device object (optional, as in the source). -/
structure BTDevice where
  id : String
  name : String
  device : Option PlatformDevice
deriving DecidableEq, Repr

/-- The `ShareSession` interface of BluetoothService.ts. -/
structure ShareSession where
  id : String
  name : String
deriving DecidableEq, Repr

/-- Sender attribution of a relayed line (`sender` column of
`session_commands`). -/
inductive Sender where
  | device
  | user
  | support
deriving DecidableEq, Repr

/-- The mutable fields of the `BluetoothService` singleton, plus observable
effect logs: `written` records every byte payload passed to
`characteristic.writeValue`, `dbLog` every row the service inserts into
`session_commands`, and `directorySessions` the id set of the session
directory (`SessionService.activeSessions`). `characteristic = true` models
a non-null characteristic reference. -/
structure ServiceState where
  connectedDevice : Option BTDevice
  characteristic : Bool
  isConnectionActive : Bool
  sharedSession : Option ShareSession
  scannedDevices : List BTDevice
  written : List (List Nat)
  dbLog : List (String × Sender)
  directorySessions : List String
deriving DecidableEq, Repr

/-- The idle state of the service singleton at module load. -/
def baseState : ServiceState :=
  ⟨none, false, false, none, [], [], [], []⟩

/-- The `gatt` object reachable through
`this.connectedDevice?.device?.gatt` (its `connected` flag), when present. -/
def ServiceState.gattObj (s : ServiceState) : Option Bool :=
  (s.connectedDevice.bind (·.device)).bind (·.gatt)

/-- Embedding of `BluetoothService.isConnected` (lines 682-686). -/
def ServiceState.isConnected (s : ServiceState) : Bool :=
  s.isConnectionActive && s.gattObj.getD false && s.characteristic

/-- Embedding of `BluetoothService.verifyConnection` (lines 616-644):
returns the updated service state together with the liveness verdict. -/
def verifyConnection (s : ServiceState) : ServiceState × Bool :=
  if !s.isConnectionActive || s.gattObj.isNone then
    (s, false)
  else if s.gattObj.getD false = false then
    ({ s with isConnectionActive := false, characteristic := false }, false)
  else if s.characteristic = false then
    ({ s with isConnectionActive := false }, false)
  else
    (s, true)

/-- Outcome of a best-effort platform sub-step during disconnect; failures
are produced when the corresponding flag is set. -/
def tryStep (fails : Bool) : Except String Unit :=
  if fails then .error "platform failure" else .ok ()

/-- Embedding of `BluetoothService.disconnect` (lines 647-680).
`stopNotifyFails` and `gattDiscFails` select whether the two best-effort
platform sub-steps (`stopNotifications`, `gatt.disconnect`) fail; either
failure is caught and logged, never propagated, so the function is total.
The state reset at the end is unconditional. -/
def disconnect (stopNotifyFails gattDiscFails : Bool) (s : ServiceState) : ServiceState :=
  let _stopNotifyOutcome :=
    if s.characteristic && s.gattObj.getD false then
      match tryStep stopNotifyFails with
      | .ok _ => ()
      | .error _ => ()
    else ()
  let s1 := if s.characteristic then { s with characteristic := false } else s
  let _gattDiscOutcome :=
    if s1.gattObj.getD false then
      match tryStep gattDiscFails with
      | .ok _ => ()
      | .error _ => ()
    else ()
  { s1 with isConnectionActive := false, connectedDevice := none }

/-- Embedding of `BluetoothService.getSharedSession` (lines 798-800). -/
def getSharedSession (s : ServiceState) : Option ShareSession :=
  s.sharedSession

/-- Embedding of the local `SessionService.closeSession`
(SessionService.ts lines 88-98): deletes the id from the active-session
map and reports whether it was present. -/
def localCloseSession (id : String) (dir : List String) : List String × Bool :=
  (dir.erase id, dir.contains id)

/-- Embedding of `BluetoothService.stopSharingSession` (lines 782-796):
when a session is shared, closes it in the session directory and clears the
`sharedSession` field; otherwise does nothing. -/
def stopSharingSession (s : ServiceState) : ServiceState :=
  match s.sharedSession with
  | some sess =>
      { s with sharedSession := none,
               directorySessions := (localCloseSession sess.id s.directorySessions).1 }
  | none => s

/-- Embedding of `BluetoothService.saveCommandToDb` (lines 722-743):
inserts a `session_commands` row when a session is shared. -/
def saveCommandToDb (command : String) (sender : Sender) (s : ServiceState) : ServiceState :=
  if s.sharedSession.isSome then
    { s with dbLog := s.dbLog ++ [(command, sender)] }
  else s

/-- Embedding of `BluetoothService.sendCommand` (lines 693-720).
`writeRes = none` models a successful `characteristic.writeValue`;
`writeRes = some e` models the write rejecting with failure `e`. The bytes
written are `TextEncoder`-encoded `command + "\r\n"`. -/
def sendCommand (writeRes : Option JsFailure) (command : String) (s : ServiceState) :
    ServiceState × Except BluetoothError Unit :=
  let v := verifyConnection s
  if !v.2 || v.1.characteristic = false then
    (v.1, .error (parseBluetoothError (.err "No device connected or characteristic not available")))
  else
    match writeRes with
    | none =>
        let s2 := { v.1 with written := v.1.written ++ [utf8Encode (command ++ "\r\n")] }
        (saveCommandToDb command .user s2, .ok ())
    | some e =>
        let s2 :=
          match e with
          | .err m =>
              if jsIncludes m "GATT Server is disconnected" then
                { v.1 with isConnectionActive := false, characteristic := false }
              else v.1
          | .nonErr _ => v.1
        (s2, .error (parseBluetoothError e))

/-- Embedding of `BluetoothService.scanForDevices` (lines 370-418):
`chooser` is the device the platform picker resolved with. A device whose
display name does not start with `"86"` is filtered out and the stored
scan list cleared; a matching device is returned as a singleton list. The
`chooser = none` arm models the defensive `if (device)` guard. -/
def scanForDevices (chooser : Option PlatformDevice) (s : ServiceState) :
    ServiceState × List BTDevice :=
  match chooser with
  | some device =>
      let deviceName := device.name.getD "Unknown Device"
      if jsStartsWith deviceName "86" then
        ({ s with scannedDevices := [⟨device.id, deviceName, some device⟩] },
         [⟨device.id, deviceName, some device⟩])
      else
        ({ s with scannedDevices := [] }, [])
  | none => (s, [])

/-- Outcome of `matchingDevice.device.gatt?.connect()`: resolves with a
server, resolves falsy, or rejects with a platform failure. -/
inductive GattConnectOutcome where
  | ok
  | nullServer
  | rejects (e : JsFailure)
deriving DecidableEq, Repr

/-- Platform responses during connection negotiation: whether each GATT
resolution sub-step succeeds. -/
structure ConnectEnv where
  gattConnect : GattConnectOutcome
  hasVendorService : Bool
  hasGenericAccess : Bool
  hasCharacteristic : Bool
  notificationsOk : Bool
deriving DecidableEq, Repr

/-- The HC-05/HC-06 style vendor serial service UUID tried first. -/
def vendorServiceUUID : String := "0000ffe0-0000-1000-8000-00805f9b34fb"

/-- The generic-access service tried as fallback. -/
def fallbackServiceUUID : String := "generic_access"

/-- Embedding of `BluetoothService.connectToDevice` (lines 465-553).
Returns the new service state, the ordered list of service UUIDs requested
from the GATT server, and the outcome. Every thrown error passes through
the catch block, which resets `isConnectionActive` and `characteristic`
and rethrows `parseBluetoothError` of the failure. A successful platform
connect leaves the stored device's `gatt.connected` flag true. -/
def connectToDevice (env : ConnectEnv) (deviceId : String) (s : ServiceState) :
    ServiceState × List String × Except BluetoothError Unit :=
  match s.scannedDevices.find? (fun d => d.id == deviceId) with
  | none =>
      ({ s with isConnectionActive := false, characteristic := false }, [],
       .error (parseBluetoothError (.err ("Device with ID " ++ deviceId ++ " not found"))))
  | some matching =>
    match matching.device with
    | none =>
        ({ s with isConnectionActive := false, characteristic := false }, [],
         .error (parseBluetoothError (.err ("Device with ID " ++ deviceId ++ " not found"))))
    | some pd =>
      match env.gattConnect with
      | .rejects e =>
          ({ s with isConnectionActive := false, characteristic := false }, [],
           .error (parseBluetoothError e))
      | .nullServer =>
          ({ s with isConnectionActive := false, characteristic := false }, [],
           .error (parseBluetoothError (.err "Failed to connect to GATT server")))
      | .ok =>
        let requested :=
          if env.hasVendorService then [vendorServiceUUID]
          else [vendorServiceUUID, fallbackServiceUUID]
        if !env.hasVendorService && !env.hasGenericAccess then
          ({ s with isConnectionActive := false, characteristic := false }, requested,
           .error (parseBluetoothError (.err "No compatible Bluetooth service found on this device")))
        else if !env.hasCharacteristic then
          ({ s with isConnectionActive := false, characteristic := false }, requested,
           .error (parseBluetoothError (.err "Bluetooth characteristic not found")))
        else if !env.notificationsOk then
          ({ s with isConnectionActive := false, characteristic := false }, requested,
           .error (parseBluetoothError (.err "Failed to set up device notifications")))
        else
          ({ s with
              isConnectionActive := true,
              characteristic := true,
              connectedDevice :=
                some { matching with device := some { pd with gatt := some true } } },
           requested, .ok ())

/-- The written-bytes log is untouched by `verifyConnection`. -/
lemma verifyConnection_written (s : ServiceState) :
    (verifyConnection s).1.written = s.written := by
  unfold verifyConnection
  repeat' split
  all_goals rfl

/-- When `verifyConnection` reports true it leaves the state unchanged, and
the characteristic reference is present. -/
lemma verifyConnection_true (s : ServiceState) (h : (verifyConnection s).2 = true) :
    verifyConnection s = (s, true) ∧ s.characteristic = true := by
  unfold verifyConnection at h ⊢
  repeat' split at h
  all_goals simp_all

/-- `saveCommandToDb` only appends to the database log. -/
lemma saveCommandToDb_written (c : String) (snd : Sender) (s : ServiceState) :
    (saveCommandToDb c snd s).written = s.written := by
  unfold saveCommandToDb
  split <;> rfl

/-- C3: disconnect never throws — for every reachable service state and
every combination of sub-step failures (`stopNotifications` failing,
`gatt.disconnect` failing), `disconnect` is a total function, and the
resulting state has `isConnected() = false`, the connection-active flag
cleared, and device and characteristic references reset. -/
theorem disconnect_never_raises (f1 f2 : Bool) (s : ServiceState) :
    (disconnect f1 f2 s).isConnected = false ∧
    (disconnect f1 f2 s).isConnectionActive = false ∧
    (disconnect f1 f2 s).connectedDevice = none ∧
    (disconnect f1 f2 s).characteristic = false := by
  unfold disconnect ServiceState.isConnected
  cases hc : s.characteristic <;> simp [hc]

/-- C10: disconnect leaves the shared session unchanged — `getSharedSession`
returns the same value after `disconnect` as before, the session directory
is untouched by `disconnect`, and it is `stopSharingSession` that clears the
shared session and closes it in the directory. -/
theorem disconnect_shared_session_frame (f1 f2 : Bool) (s : ServiceState) :
    getSharedSession (disconnect f1 f2 s) = getSharedSession s ∧
    (disconnect f1 f2 s).directorySessions = s.directorySessions ∧
    (∀ sess, s.sharedSession = some sess →
      (stopSharingSession s).sharedSession = none ∧
      (stopSharingSession s).directorySessions = s.directorySessions.erase sess.id) := by
  refine ⟨?_, ?_, ?_⟩
  · unfold disconnect getSharedSession
    cases hc : s.characteristic <;> simp [hc]
  · unfold disconnect
    cases hc : s.characteristic <;> simp [hc]
  · intro sess h
    unfold stopSharingSession
    rw [h]
    exact ⟨rfl, rfl⟩

/-- Concrete instantiation of `disconnect_shared_session_frame`: a state
sharing session `s9` keeps it across `disconnect`, and
`stopSharingSession` clears it. -/
theorem disconnect_shared_session_frame_witness :
    ({ baseState with sharedSession := some ⟨"s9", "Support"⟩ } : ServiceState).sharedSession
      = some ⟨"s9", "Support"⟩ ∧
    (stopSharingSession { baseState with sharedSession := some ⟨"s9", "Support"⟩ }).sharedSession
      = none :=
  ⟨rfl,
   ((disconnect_shared_session_frame false false
      { baseState with sharedSession := some ⟨"s9", "Support"⟩ }).2.2
      ⟨"s9", "Support"⟩ rfl).1⟩

/-- A representative state with a live connection: device stored, GATT
connected, characteristic resolved, connection flag set. -/
def connState : ServiceState :=
  { baseState with
      connectedDevice := some ⟨"d1", "86-Sensor", some ⟨"d1", some "86-Sensor", some true⟩⟩,
      characteristic := true,
      isConnectionActive := true }

/-- C4: line terminator round-trip — for any command string without
embedded CR or LF, when the connection precondition holds `sendCommand`
performs exactly one characteristic write whose payload is the UTF-8
encoding of the command followed by the two bytes 0x0D 0x0A, nothing more
and nothing less. -/
theorem send_terminator (command : String) (s : ServiceState)
    (hno : ∀ c ∈ command.data, c ≠ '\r' ∧ c ≠ '\n')
    (hv : (verifyConnection s).2 = true) :
    (sendCommand none command s).2 = .ok () ∧
    (sendCommand none command s).1.written
      = s.written ++ [utf8Encode command ++ [0x0D, 0x0A]] := by
  obtain ⟨hveq, hchar⟩ := verifyConnection_true s hv
  have hbytes : utf8Encode (command ++ "\r\n") = utf8Encode command ++ [0x0D, 0x0A] := by
    rw [utf8Encode_append]
    rfl
  unfold sendCommand
  rw [hveq]
  simp [hchar, saveCommandToDb_written, hbytes]

/-- Concrete instantiation of `send_terminator`: sending `AT` over a live
connection writes the bytes of `AT` followed by CR LF. -/
theorem send_terminator_witness :
    (∀ c ∈ "AT".data, c ≠ '\r' ∧ c ≠ '\n') ∧
    (verifyConnection connState).2 = true ∧
    (sendCommand none "AT" connState).1.written
      = connState.written ++ [utf8Encode "AT" ++ [0x0D, 0x0A]] :=
  ⟨by decide, by decide,
   (send_terminator "AT" connState (by decide) (by decide)).2⟩

/-- C7 counterexample: over a live connection, a transport-level write
failure whose message is `"Write error"` makes `sendCommand` reject with
kind `unknown`, not `write-failed` — refuting the claim that transport
write failures are classified as `write-failed`. -/
theorem send_write_error_not_write_failed :
    (sendCommand (some (.err "Write error")) "AT+STATUS" connState).2
      = .error ⟨.unknown, "An unknown error occurred", some "Write error"⟩ ∧
    BluetoothErrorType.unknown ≠ .writeFailed :=
  ⟨rfl, by decide⟩

/-- C7 as amended: when the liveness check fails immediately before a send,
`sendCommand` rejects with kind `device-disconnected` and performs no
characteristic write; when the characteristic write itself fails,
`sendCommand` rejects with the classification of the underlying failure,
which is never of kind `write-failed` (there is no classifier rule for it),
and the failed write leaves no bytes in the log. -/
theorem send_failure_kinds (s : ServiceState) (command : String) :
    ((verifyConnection s).2 = false →
      ∀ wr, (sendCommand wr command s).2
          = .error (parseBluetoothError (.err "No device connected or characteristic not available")) ∧
        (parseBluetoothError (.err "No device connected or characteristic not available")).type
          = .deviceDisconnected ∧
        (sendCommand wr command s).1.written = s.written) ∧
    ((verifyConnection s).2 = true →
      ∀ e, (sendCommand (some e) command s).2 = .error (parseBluetoothError e) ∧
        (parseBluetoothError e).type ≠ .writeFailed ∧
        (sendCommand (some e) command s).1.written = s.written) := by
  constructor
  · intro h wr
    have hpair : verifyConnection s = ((verifyConnection s).1, false) := by
      rw [← h]
    unfold sendCommand
    rw [hpair]
    exact ⟨rfl, by decide, verifyConnection_written s⟩
  · intro h e
    obtain ⟨hveq, hchar⟩ := verifyConnection_true s h
    refine ⟨?_, parse_never_write_failed e, ?_⟩
    · unfold sendCommand
      rw [hveq]
      simp [hchar]
    · unfold sendCommand
      rw [hveq]
      cases e with
      | err m =>
          simp only [hchar]
          simp
          split <;> rfl
      | nonErr v => simp [hchar]

/-- Concrete instantiation of `send_failure_kinds`: in the idle state the
liveness check fails and `sendCommand` rejects as `device-disconnected`
with no write performed. -/
theorem send_failure_kinds_witness :
    (verifyConnection baseState).2 = false ∧
    ((sendCommand none "AT+STATUS" baseState).2
        = .error (parseBluetoothError (.err "No device connected or characteristic not available")) ∧
      (parseBluetoothError (.err "No device connected or characteristic not available")).type
        = .deviceDisconnected ∧
      (sendCommand none "AT+STATUS" baseState).1.written = baseState.written) :=
  ⟨by decide, (send_failure_kinds baseState "AT+STATUS").1 (by decide) none⟩

/-- C6: scan filter — for every device the platform chooser returns,
`scanForDevices` yields a singleton containing that device exactly when its
name starts with `"86"`, the empty list otherwise (including nameless
devices, shown as "Unknown Device"), and the result never has more than one
element. -/
theorem scan_filter (d : PlatformDevice) (s : ServiceState) :
    ((scanForDevices (some d) s).2).length ≤ 1 ∧
    (∀ nm, d.name = some nm →
      ((scanForDevices (some d) s).2 = [⟨d.id, nm, some d⟩] ↔ jsStartsWith nm "86" = true) ∧
      (jsStartsWith nm "86" = false → (scanForDevices (some d) s).2 = [])) ∧
    (d.name = none → (scanForDevices (some d) s).2 = []) := by
  refine ⟨?_, ?_, ?_⟩
  · simp only [scanForDevices]
    split <;> simp
  · intro nm hnm
    simp only [scanForDevices, hnm, Option.getD_some]
    constructor
    · cases hs : jsStartsWith nm "86" <;> simp [hs]
    · intro hs
      simp [hs]
  · intro hnm
    simp only [scanForDevices, hnm, Option.getD_none]
    have h86 : jsStartsWith "Unknown Device" "86" = false := by decide
    simp [h86]

/-- Concrete instantiation of `scan_filter`: a chooser result named
`86-Sensor` is returned as selectable, one named `HC-05` is filtered out. -/
theorem scan_filter_witness :
    (scanForDevices (some ⟨"idA", some "86-Sensor", none⟩) baseState).2
      = [⟨"idA", "86-Sensor", some ⟨"idA", some "86-Sensor", none⟩⟩] ∧
    (scanForDevices (some ⟨"idB", some "HC-05", none⟩) baseState).2 = [] :=
  ⟨((scan_filter ⟨"idA", some "86-Sensor", none⟩ baseState).2.1 "86-Sensor" rfl).1.mpr
      (by decide),
   ((scan_filter ⟨"idB", some "HC-05", none⟩ baseState).2.1 "HC-05" rfl).2 (by decide)⟩

/-- The scanned state C5 starts from: one selectable device `dev1`. -/
def c5Scanned : ServiceState :=
  { baseState with
      scannedDevices := [⟨"dev1", "86-Sensor", some ⟨"dev1", some "86-Sensor", some false⟩⟩] }

/-- C5: the service-resolution fallback requests the vendor serial service
first and `generic_access` second; but when both fail, the rejection is
classified `unknown`, not `service-not-found` — the sentinel
`Error("No compatible Bluetooth service found on this device")` matches no
rule of the service's own classifier (the `service-not-found` rule needs
`NotFoundError` or `no such service` in the message). -/
theorem connect_fallback_kind_is_unknown :
    (connectToDevice ⟨.ok, false, false, false, false⟩ "dev1" c5Scanned).2.1
      = [vendorServiceUUID, fallbackServiceUUID] ∧
    (connectToDevice ⟨.ok, false, false, false, false⟩ "dev1" c5Scanned).2.2
      = .error ⟨.unknown, "An unknown error occurred",
                some "No compatible Bluetooth service found on this device"⟩ ∧
    BluetoothErrorType.unknown ≠ .serviceNotFound ∧
    (connectToDevice ⟨.ok, false, false, false, false⟩ "dev1" c5Scanned).1.isConnectionActive
      = false :=
  ⟨rfl, rfl, by decide, rfl⟩

/-- The JavaScript regex `\s` character class (ECMA-262 WhiteSpace and
LineTerminator set), used by the `/(\s)AT\+/g` substitution. -/
def isJsSpace (c : Char) : Bool :=
  ([0x9, 0xa, 0xb, 0xc, 0xd, 0x20, 0xa0, 0x1680, 0x2028, 0x2029,
    0x202f, 0x205f, 0x3000, 0xfeff] : List Nat).contains c.toNat
  || (decide (0x2000 ≤ c.toNat) && decide (c.toNat ≤ 0x200a))

/-- `formattedData.replace(/AT\+/g, "\nAT+")` — break before each `AT+`
(BluetoothService.ts line 561). -/
def breakATPlus : List Char → List Char
  | 'A' :: 'T' :: '+' :: rest => '\n' :: 'A' :: 'T' :: '+' :: breakATPlus rest
  | c :: rest => c :: breakATPlus rest
  | [] => []

/-- `formattedData.replace(/OK/g, "\n\nOK")` — isolate the `OK` status
token (line 564). -/
def okIsolate : List Char → List Char
  | 'O' :: 'K' :: rest => '\n' :: '\n' :: 'O' :: 'K' :: okIsolate rest
  | c :: rest => c :: okIsolate rest
  | [] => []

/-- `formattedData.replace(/(\s)AT\+/g, "\nAT+")` — break at each AT
command parameter (line 567). -/
def breakSpaceAT : List Char → List Char
  | c :: 'A' :: 'T' :: '+' :: rest =>
      if isJsSpace c then '\n' :: 'A' :: 'T' :: '+' :: breakSpaceAT rest
      else c :: breakSpaceAT ('A' :: 'T' :: '+' :: rest)
  | c :: rest => c :: breakSpaceAT rest
  | [] => []

/-- The `"="` delimiter substitution of the delimiter loop (lines
570-575): each `=` is followed by a newline. -/
def eqBreak : List Char → List Char
  | '=' :: rest => '=' :: '\n' :: eqBreak rest
  | c :: rest => c :: eqBreak rest
  | [] => []

/-- The `" "` delimiter substitution of the delimiter loop (lines
570-575): each space is followed by a newline. -/
def spaceBreak : List Char → List Char
  | ' ' :: rest => ' ' :: '\n' :: spaceBreak rest
  | c :: rest => c :: spaceBreak rest
  | [] => []

/-- `formattedData.replace(/ERROR/g, "\nERROR\n")` — isolate error
messages (line 578). -/
def errorIsolate : List Char → List Char
  | 'E' :: 'R' :: 'R' :: 'O' :: 'R' :: rest =>
      '\n' :: 'E' :: 'R' :: 'R' :: 'O' :: 'R' :: '\n' :: errorIsolate rest
  | c :: rest => c :: errorIsolate rest
  | [] => []

/-- `formattedData.replace(/^\n+/, "")` — strip empty lines at the
beginning (line 581). -/
def dropLeadingNewlines (l : List Char) : List Char :=
  l.dropWhile (· == '\n')

/-- `formattedData.replace(/\n{3,}/g, "\n\n")` — collapse runs of three or
more newlines to exactly two (line 584). `k` counts the consecutive
newlines already kept at the current position; once two are kept, further
newlines of the same run are dropped. -/
def collapseAux : Nat → List Char → List Char
  | _, [] => []
  | k, c :: rest =>
      if c = '\n' then
        if 2 ≤ k then collapseAux k rest
        else '\n' :: collapseAux (k + 1) rest
      else c :: collapseAux 0 rest

/-- `formattedData.replace(/\n(.)\n/g, "\n$1")` — drop the newline after a
single-character line (line 587); `.` does not match a newline, and the
scan resumes after each replaced region, as the JS global replace does. -/
def fixSingle : List Char → List Char
  | a :: b :: c :: rest =>
      if a == '\n' && !(b == '\n') && c == '\n' then
        '\n' :: b :: fixSingle rest
      else a :: fixSingle (b :: c :: rest)
  | l => l

/-- Embedding of `BluetoothService.formatBluetoothData` (lines 556-590):
the seven substitutions applied in source order. -/
def formatBluetoothData (s : String) : String :=
  ⟨fixSingle (collapseAux 0 (dropLeadingNewlines (errorIsolate (spaceBreak
    (eqBreak (breakSpaceAT (okIsolate (breakATPlus s.data))))))))⟩

/-- Whether a character list contains three consecutive newline
characters. -/
def hasTriple : List Char → Bool
  | a :: b :: c :: rest =>
      (a == '\n' && b == '\n' && c == '\n') || hasTriple (b :: c :: rest)
  | _ => false

/-- Length of the run of newlines at the head of the list. -/
def leadN (l : List Char) : Nat :=
  (l.takeWhile (· == '\n')).length

/-- A leading newline adds one to the head run length. -/
lemma leadN_cons_nl (l : List Char) : leadN ('\n' :: l) = leadN l + 1 := by
  simp [leadN, List.takeWhile_cons]

/-- A non-newline head makes the head run empty. -/
lemma leadN_cons_other {c : Char} (l : List Char) (hc : (c == '\n') = false) :
    leadN (c :: l) = 0 := by
  simp [leadN, List.takeWhile_cons, hc]

/-- A triple-newline-free list stays triple-newline-free when its head is
removed. -/
lemma hasTriple_tail {a : Char} {l : List Char} (h : hasTriple (a :: l) = false) :
    hasTriple l = false := by
  match l with
  | [] => rfl
  | [_] => rfl
  | b :: c :: rest =>
      simp only [hasTriple, Bool.or_eq_false_iff] at h
      exact h.2

/-- Prepending a non-newline character does not change whether a triple
newline occurs. -/
lemma hasTriple_cons_other {c : Char} (l : List Char) (hc : (c == '\n') = false) :
    hasTriple (c :: l) = hasTriple l := by
  match l with
  | [] => rfl
  | [_] => rfl
  | b :: d :: rest => simp [hasTriple, hc]

/-- Prepending one newline to a triple-free list whose head newline run has
length at most one cannot create a triple newline. -/
lemma hasTriple_cons_nl {l : List Char} (h1 : hasTriple l = false)
    (h2 : leadN l ≤ 1) : hasTriple ('\n' :: l) = false := by
  match l with
  | [] => rfl
  | [_] => rfl
  | b :: c :: rest =>
      by_cases hb : (b == '\n') = true
      · by_cases hc : (c == '\n') = true
        · exfalso
          have hb' : b = '\n' := by simpa using hb
          have hc' : c = '\n' := by simpa using hc
          subst hb'; subst hc'
          rw [leadN_cons_nl, leadN_cons_nl] at h2
          omega
        · simp [hasTriple, hb, hc, h1]
      · simp [hasTriple, hb, h1]

/-- A head newline run of length at least two pins the first two
characters. -/
lemma take2_of_leadN (l : List Char) (h : 2 ≤ leadN l) :
    l.take 2 = ['\n', '\n'] := by
  match l with
  | [] => simp [leadN] at h
  | x :: rest =>
      by_cases hx : (x == '\n') = true
      · have hx' : x = '\n' := by simpa using hx
        subst hx'
        rw [leadN_cons_nl] at h
        match rest with
        | [] => simp [leadN] at h
        | y :: rest2 =>
            by_cases hy : (y == '\n') = true
            · have hy' : y = '\n' := by simpa using hy
              subst hy'
              rfl
            · rw [leadN_cons_other _ (by simpa using hy)] at h
              omega
      · rw [leadN_cons_other _ (by simpa using hx)] at h
        omega

/-- The single-character-line fixup preserves the first two characters of
its input. -/
lemma fixSingle_take2 : ∀ l : List Char, (fixSingle l).take 2 = l.take 2
  | [] => rfl
  | [_] => rfl
  | [_, _] => rfl
  | a :: b :: c :: rest => by
      by_cases hm : (a == '\n' && !(b == '\n') && c == '\n') = true
      · have ha : a = '\n' := by
          simp only [Bool.and_eq_true] at hm
          simpa using hm.1.1
        simp only [fixSingle, if_pos hm]
        rw [ha]
        simp
      · simp only [fixSingle, if_neg hm]
        have ht := fixSingle_take2 (b :: c :: rest)
        simp only [List.take_succ_cons]
        congr 1
        have h1 : ((fixSingle (b :: c :: rest)).take 2).take 1
            = ((b :: c :: rest).take 2).take 1 := by rw [ht]
        simpa [List.take_take] using h1

/-- The single-character-line fixup cannot create a triple newline. -/
lemma fixSingle_noTriple : ∀ l : List Char,
    hasTriple l = false → hasTriple (fixSingle l) = false
  | [], h => h
  | [_], h => h
  | [_, _], h => h
  | a :: b :: c :: rest, h => by
      by_cases hm : (a == '\n' && !(b == '\n') && c == '\n') = true
      · simp only [fixSingle, if_pos hm]
        have hb : (b == '\n') = false := by
          simp only [Bool.and_eq_true, Bool.not_eq_true'] at hm
          exact hm.1.2
        have hrest : hasTriple rest = false :=
          hasTriple_tail (hasTriple_tail (hasTriple_tail h))
        have ih := fixSingle_noTriple rest hrest
        have hWtail : hasTriple (b :: fixSingle rest) = false := by
          rw [hasTriple_cons_other _ hb]
          exact ih
        apply hasTriple_cons_nl hWtail
        rw [leadN_cons_other _ hb]
        omega
      · simp only [fixSingle, if_neg hm]
        have htail : hasTriple (b :: c :: rest) = false := hasTriple_tail h
        have ih := fixSingle_noTriple (b :: c :: rest) htail
        by_cases ha : (a == '\n') = true
        · have hW2 : (fixSingle (b :: c :: rest)).take 2 = [b, c] := by
            rw [fixSingle_take2]
            rfl
          have hle : leadN (fixSingle (b :: c :: rest)) ≤ 1 := by
            by_contra hgt
            push_neg at hgt
            have h2 := take2_of_leadN (fixSingle (b :: c :: rest)) (by omega)
            rw [hW2] at h2
            simp only [List.cons.injEq, and_true] at h2
            have ha' : a = '\n' := by simpa using ha
            subst ha'
            obtain ⟨hb', hc'⟩ := h2
            subst hb'; subst hc'
            simp [hasTriple] at h
          have ha' : a = '\n' := by simpa using ha
          subst ha'
          exact hasTriple_cons_nl ih hle
        · rw [hasTriple_cons_other _ (by simpa using ha)]
          exact ih

/-- Unfolding: once two newlines of a run are kept, further newlines are
dropped. -/
lemma collapseAux_nl_drop {k : Nat} (rest : List Char) (hk : 2 ≤ k) :
    collapseAux k ('\n' :: rest) = collapseAux k rest := by
  simp [collapseAux, hk]

/-- Unfolding: a newline within the first two of a run is kept. -/
lemma collapseAux_nl_keep {k : Nat} (rest : List Char) (hk : ¬ 2 ≤ k) :
    collapseAux k ('\n' :: rest) = '\n' :: collapseAux (k + 1) rest := by
  simp [collapseAux, hk]

/-- Unfolding: a non-newline character is kept and resets the run
counter. -/
lemma collapseAux_other {k : Nat} {c : Char} (rest : List Char) (hc : ¬ c = '\n') :
    collapseAux k (c :: rest) = c :: collapseAux 0 rest := by
  simp [collapseAux, hc]

/-- The newline-run collapse emits no triple newline, and emits a head
newline run bounded by how much of the current run was already kept. -/
lemma collapseAux_ok (l : List Char) : ∀ k : Nat,
    hasTriple (collapseAux k l) = false ∧
    leadN (collapseAux k l) + min k 2 ≤ 2 := by
  induction l with
  | nil =>
      intro k
      refine ⟨rfl, ?_⟩
      have h2 := min_le_right k 2
      simp only [collapseAux, leadN, List.takeWhile_nil, List.length_nil, Nat.zero_add]
      exact h2
  | cons c rest ih =>
      intro k
      by_cases hc : c = '\n'
      · subst hc
        by_cases hk : 2 ≤ k
        · rw [collapseAux_nl_drop rest hk]
          exact ih k
        · obtain ⟨ih1, ih2⟩ := ih (k + 1)
          rw [collapseAux_nl_keep rest hk]
          have hmin1 : min (k + 1) 2 = k + 1 := min_eq_left (by omega)
          have hmink : min k 2 = k := min_eq_left (by omega)
          rw [hmin1] at ih2
          have hle : leadN (collapseAux (k + 1) rest) ≤ 1 := by omega
          refine ⟨hasTriple_cons_nl ih1 hle, ?_⟩
          rw [leadN_cons_nl, hmink]
          omega
      · obtain ⟨ih1, ih2⟩ := ih 0
        have hc' : (c == '\n') = false := by simpa using hc
        rw [collapseAux_other rest hc]
        refine ⟨?_, ?_⟩
        · rw [hasTriple_cons_other _ hc']
          exact ih1
        · rw [leadN_cons_other _ hc']
          have := min_le_right k 2
          omega

/-- C9: framer blank-line collapse — for every input string, the output of
`formatBluetoothData` contains no run of three or more consecutive newline
characters, even though the earlier keyword-break substitutions may
introduce arbitrary newline runs: the `\n{3,}` collapse leaves runs of at
most two, and the final single-character-line fixup cannot lengthen a
newline run. -/
theorem format_no_triple_newline (s : String) :
    hasTriple (formatBluetoothData s).data = false :=
  fixSingle_noTriple _
    ((collapseAux_ok (dropLeadingNewlines (errorIsolate (spaceBreak (eqBreak
      (breakSpaceAT (okIsolate (breakATPlus s.data))))))) 0).1)

/-- A `session_commands` row as delivered to UserDeviceView: store-assigned
record id, session id, sender attribution and command text. -/
structure SessionCommand where
  id : String
  sessionId : String
  sender : Sender
  command : String
deriving DecidableEq, Repr

/-- The prefix stripping of the push handler's forced-execution block
(UserDeviceView.tsx lines 301-306). -/
def stripExecMarker (c : String) : String :=
  if jsStartsWith c "AUTO_EXEC::" then c.drop "AUTO_EXEC::".length
  else if jsStartsWith c "##EXEC##" then c.drop "##EXEC##".length
  else c

/-- One record's auto-execution step inside `refreshCommands`
(UserDeviceView.tsx lines 162-198): a support record whose id is not in
`executedCommandsRef` has its command sent; the id is recorded only when
the send succeeds. The accumulator carries (sends so far, executed-id
set). -/
def refreshStep (sendOk : Bool) (acc : List String × List String)
    (cmd : SessionCommand) : List String × List String :=
  if cmd.sender = .support ∧ acc.2.contains cmd.id = false then
    (acc.1 ++ [cmd.command], if sendOk then acc.2 ++ [cmd.id] else acc.2)
  else acc

/-- The auto-execution loop of `refreshCommands` (UserDeviceView.tsx lines
131-203, poll path), over the full ordered record list of the session. -/
def refreshCommands (sendOk : Bool) (cmds : List SessionCommand)
    (executed : List String) : List String × List String :=
  cmds.foldl (refreshStep sendOk) ([], executed)

/-- The push-subscription handler for one inserted support record
(UserDeviceView.tsx lines 217-368): two identical execution blocks (lines
238-265 and 268-294) each send the raw command of a support record, and
the forced-execution block (lines 299-364) strips any exec marker and
sends again whenever a device is connected — the handler never consults or
updates the executed-id set, which it returns unchanged. -/
def pushHandler (connected : Bool) (rec : SessionCommand)
    (executed : List String) : List String × List String :=
  let s1 := if rec.sender = .support ∧ rec.command ≠ "" then [rec.command] else []
  let s2 := if rec.sender = .support ∧ rec.command ≠ "" then [rec.command] else []
  let s3 := if rec.command ≠ "" ∧ connected then [stripExecMarker rec.command] else []
  (s1 ++ s2 ++ s3, executed)

/-- C1: at the failing input — a single support record `r1` with command
`AT`, delivered first through the push subscription and then observed by
the 1-second poll — the push handler sends the command three times without
touching the executed-id set, and the poll then sends it a fourth time:
four Device Link sends for one record identity, not one. -/
theorem relay_duplicate_execution :
    (pushHandler true ⟨"r1", "s1", .support, "AT"⟩ []).1 = ["AT", "AT", "AT"] ∧
    (pushHandler true ⟨"r1", "s1", .support, "AT"⟩ []).2 = [] ∧
    (refreshCommands true [⟨"r1", "s1", .support, "AT"⟩]
        (pushHandler true ⟨"r1", "s1", .support, "AT"⟩ []).2).1 = ["AT"] ∧
    (pushHandler true ⟨"r1", "s1", .support, "AT"⟩ []).1.length +
      (refreshCommands true [⟨"r1", "s1", .support, "AT"⟩]
        (pushHandler true ⟨"r1", "s1", .support, "AT"⟩ []).2).1.length = 4 := by
  decide

/-- A `remote_sessions` row of the Supabase session service: store id and
active flag. -/
structure StoreSession where
  id : String
  isActive : Bool
deriving DecidableEq, Repr

/-- State of the Supabase `SessionService`: the `remote_sessions` table and
the id set of the local `activeSessions` cache (refreshed from the store
every 10 seconds). -/
structure SessionSvcState where
  store : List StoreSession
  cache : List String
deriving DecidableEq, Repr

/-- Effect of `update({ is_active: false }).eq('id', id)` on one store
row. -/
def markInactive (id : String) (r : StoreSession) : StoreSession :=
  if r.id = id then { r with isActive := false } else r

/-- Embedding of the Supabase `SessionService.closeSession` (lines 238-270
of the Supabase service variant): marks matching store rows inactive, then
returns the result of deleting the id from the local `activeSessions`
cache. `updateFails` models the store update returning an error, in which
case nothing changes and false is returned. -/
def closeSession (updateFails : Bool) (id : String) (st : SessionSvcState) :
    SessionSvcState × Bool :=
  if updateFails then (st, false)
  else (⟨st.store.map (markInactive id), st.cache.erase id⟩, st.cache.contains id)

/-- C8 counterexample: a store holding an active record `s1` that the
local cache has not yet picked up — `closeSession` marks it inactive but
returns false, although a matching active session record existed at the
time of the call. -/
theorem closeSession_cache_miss :
    (⟨"s1", true⟩ : StoreSession) ∈ (⟨[⟨"s1", true⟩], []⟩ : SessionSvcState).store ∧
    (closeSession false "s1" ⟨[⟨"s1", true⟩], []⟩).2 = false ∧
    (closeSession false "s1" ⟨[⟨"s1", true⟩], []⟩).1.store = [⟨"s1", false⟩] := by
  decide

/-- C8 as amended: `closeSession(id)` marks every matching store record
inactive, but its Boolean result reports whether the id was present in the
service's local cache of active sessions (which may lag the store by up to
the 10-second refresh), not whether a matching active store record
existed; a failing store update returns false and leaves everything
unchanged. -/
theorem closeSession_semantics (id : String) (st : SessionSvcState)
    (r : StoreSession) (hr : r ∈ (closeSession false id st).1.store)
    (hid : r.id = id) :
    r.isActive = false ∧
    (closeSession false id st).2 = st.cache.contains id ∧
    closeSession true id st = (st, false) := by
  refine ⟨?_, rfl, rfl⟩
  simp only [closeSession, Bool.false_eq_true, if_false, List.mem_map] at hr
  obtain ⟨a, ha, heq⟩ := hr
  unfold markInactive at heq
  by_cases h : a.id = id
  · rw [if_pos h] at heq
    rw [← heq]
  · rw [if_neg h] at heq
    subst heq
    exact absurd hid h

/-- Concrete instantiation of `closeSession_semantics`: closing `s1` while
it is cached marks the store row inactive and returns true. -/
theorem closeSession_semantics_witness :
    (⟨"s1", false⟩ : StoreSession) ∈
      (closeSession false "s1" ⟨[⟨"s1", true⟩], ["s1"]⟩).1.store ∧
    ((⟨"s1", false⟩ : StoreSession).isActive = false ∧
      (closeSession false "s1" ⟨[⟨"s1", true⟩], ["s1"]⟩).2
        = (["s1"] : List String).contains "s1" ∧
      closeSession true "s1" ⟨[⟨"s1", true⟩], ["s1"]⟩
        = (⟨[⟨"s1", true⟩], ["s1"]⟩, false)) :=
  ⟨by decide, closeSession_semantics "s1" ⟨[⟨"s1", true⟩], ["s1"]⟩ ⟨"s1", false⟩
    (by decide) rfl⟩

end RemoteBT
